import Mathlib

/-!
Shallow embedding of the WebGL territory-rendering code of OpenFrontIO:
the fragment shader of `WebGLTerritoryLayer` (tile-word decoding, border
detection, territory coloring), the `TextureData` CPU byte buffer, the
`ColorPalette` CPU palette update, and the two `setUniform`
implementations.  Machine integers are modelled as `Nat`/`Int` with the
bitwise operators of the source; GLSL `float` color components are
modelled as `ℚ` (every arithmetic operation the embedded code performs
on them is exact).
-/

namespace TerritoryShader

/-- A GLSL `vec3` of float components, modelled over `ℚ`. -/
structure Vec3Q where
  r : ℚ
  g : ℚ
  b : ℚ
deriving DecidableEq

/-- A GLSL `vec4` of float components, modelled over `ℚ`. -/
structure Vec4Q where
  r : ℚ
  g : ℚ
  b : ℚ
  a : ℚ
deriving DecidableEq

/-- `const uint UNOWNED_TERRITORY_ID = 0u;` -/
def UNOWNED_TERRITORY_ID : Nat := 0

/-- `const uint OWNER_ID_MASK = (1u << 12) - 1u;` (all lower 12 bits). -/
def OWNER_ID_MASK : Nat := (1 <<< 12) - 1

/-- `const uint FALLOUT_MASK = 1u << 13;` -/
def FALLOUT_MASK : Nat := 1 <<< 13

/-- `const uint DEFENSE_BONUS_MASK = 1u << 14;` -/
def DEFENSE_BONUS_MASK : Nat := 1 <<< 14

/-- The GLSL `struct TileData`. -/
structure TileData where
  ownerId : Nat
  isFallout : Bool
  hasDefenseBonus : Bool
deriving DecidableEq

/-- `TileData DecodeTileData(uint bits)`: extract the territory bits. -/
def DecodeTileData (bits : Nat) : TileData where
  ownerId := bits &&& OWNER_ID_MASK
  isFallout := bits &&& FALLOUT_MASK != 0
  hasDefenseBonus := bits &&& DEFENSE_BONUS_MASK != 0

/-- Modelled from the spec: the tile encoder (not under `src/`) "packs
per-tile ownership + flags into a 16-bit integer" with layout
bits 0–11 `ownerId`, bit 13 `isFallout`, bit 14 `hasDefenseBonus`;
the word is `ownerId | isFallout<<13 | hasDefenseBonus<<14`. -/
def encodeTileWord (ownerId : Nat) (isFallout hasDefenseBonus : Bool) : Nat :=
  ownerId ||| ((if isFallout then 1 else 0) <<< 13) |||
    ((if hasDefenseBonus then 1 else 0) <<< 14)

/-- GLSL `uint(int)` conversion: two's-complement reinterpretation
modulo `2^32`. -/
def uintOfInt (i : Int) : Nat := (i.emod (2 ^ 32)).toNat

/-- The per-fragment environment of the fragment shader: the sampled
textures and the uniforms.  `tile x y` is the 16-bit word of
`texelFetch(u_tileTexture, ivec2(x, y), 0).r`; `(px, py)` is the texel
coordinate `ivec2(floor(uv * textureDims))` of the current fragment, at
which both `texture(u_tileTexture, v_texCoord)` (nearest sampling of the
integer texture) and the `texelFetch` of the border test resolve;
`palette o r` is `texelFetch(u_paletteTexture, ivec2(o, r), 0)`. -/
structure FragEnv where
  tile : Int → Int → Nat
  px : Nat
  py : Nat
  palette : Nat → Nat → Vec4Q
  u_hasFocusedPlayer : ℚ
  u_focusedPlayerId : Int
  u_territoryAlpha : ℚ
  u_borderAlpha : ℚ
  u_focusedBorderColor : Vec3Q
  u_falloutColor : Vec3Q
  debug_draw_tiles : Bool

/-- `TileData ThisTile()`: fetch and decode the tile word of the current
fragment. -/
def ThisTile (env : FragEnv) : TileData :=
  DecodeTileData (env.tile env.px env.py)

/-- `bool isBorder(vec2 uv, uint ownerId)`: masked owner ids of the four
axis-aligned neighbors; `!all(matches)`. -/
def isBorder (env : FragEnv) (ownerId : Nat) : Bool :=
  let n0 := env.tile ((env.px : Int) - 1) (env.py : Int) &&& OWNER_ID_MASK
  let n1 := env.tile ((env.px : Int) + 1) (env.py : Int) &&& OWNER_ID_MASK
  let n2 := env.tile (env.px : Int) ((env.py : Int) - 1) &&& OWNER_ID_MASK
  let n3 := env.tile (env.px : Int) ((env.py : Int) + 1) &&& OWNER_ID_MASK
  !((n0 == ownerId) && (n1 == ownerId) && (n2 == ownerId) && (n3 == ownerId))

/-- `const uint PLAYER_COLOR_TERRITORY = 0u;` -/
def PLAYER_COLOR_TERRITORY : Nat := 0

/-- `const uint PLAYER_COLOR_TEAM = 1u;` -/
def PLAYER_COLOR_TEAM : Nat := 1

/-- `const uint PLAYER_COLOR_BORDER = 3u;` -/
def PLAYER_COLOR_BORDER : Nat := 3

/-- `const uint PLAYER_COLOR_DEFENSE_BONUS_BORDER_LIGHT = 4u;` -/
def PLAYER_COLOR_DEFENSE_BONUS_BORDER_LIGHT : Nat := 4

/-- `const uint PLAYER_COLOR_DEFENSE_BONUS_BORDER_DARK = 5u;` -/
def PLAYER_COLOR_DEFENSE_BONUS_BORDER_DARK : Nat := 5

/-- `vec4 getPlayerColor(uint ownerId, uint row)`: sample the palette,
alpha from `u_borderAlpha` for rows `>= PLAYER_COLOR_BORDER`, else
`u_territoryAlpha`. -/
def getPlayerColor (env : FragEnv) (ownerId row : Nat) : Vec4Q :=
  let paletteColor := env.palette ownerId row
  let alpha := if row ≥ PLAYER_COLOR_BORDER then env.u_borderAlpha else env.u_territoryAlpha
  ⟨paletteColor.r, paletteColor.g, paletteColor.b, alpha⟩

/-- `vec4 calculateDefendedBorderColor(uint ownerId, vec2 uv)`:
one-pixel checkerboard between the light and dark defended-border
palette rows. -/
def calculateDefendedBorderColor (env : FragEnv) (ownerId : Nat) : Vec4Q :=
  let stipple := (env.py ^^^ env.px) &&& 1
  let paletteRow := if stipple == 0 then PLAYER_COLOR_DEFENSE_BONUS_BORDER_LIGHT
    else PLAYER_COLOR_DEFENSE_BONUS_BORDER_DARK
  getPlayerColor env ownerId paletteRow

/-- `vec4 calculateBorderColor(TileData tileData, vec2 uv)`. -/
def calculateBorderColor (env : FragEnv) (tileData : TileData) : Vec4Q :=
  if env.u_hasFocusedPlayer > 0 ∧ tileData.ownerId = uintOfInt env.u_focusedPlayerId then
    ⟨env.u_focusedBorderColor.r, env.u_focusedBorderColor.g, env.u_focusedBorderColor.b,
      env.u_territoryAlpha⟩
  else if tileData.hasDefenseBonus then
    calculateDefendedBorderColor env tileData.ownerId
  else
    getPlayerColor env tileData.ownerId PLAYER_COLOR_BORDER

/-- GLSL `mix` on floats. -/
def mixQ (a b t : ℚ) : ℚ := a * (1 - t) + b * t

/-- GLSL `mix` on `vec4`, componentwise. -/
def mixVec4 (a b : Vec4Q) (t : ℚ) : Vec4Q :=
  ⟨mixQ a.r b.r t, mixQ a.g b.g t, mixQ a.b b.b t, mixQ a.a b.a t⟩

/-- `vec4 DebugDrawTileData(vec4 inColor)`. -/
def DebugDrawTileData (env : FragEnv) (inColor : Vec4Q) : Vec4Q :=
  let debugTileSize := 4
  let stipple := ((env.py >>> debugTileSize) ^^^ (env.px >>> debugTileSize)) &&& 1
  if stipple == 0 then
    let tileData := ThisTile env
    let debugColor : Vec4Q :=
      ⟨(tileData.ownerId : ℚ) / 255,
        if tileData.isFallout then 1 else 0,
        if tileData.hasDefenseBonus then 1 else 0, 1⟩
    mixVec4 inColor debugColor (1 / 2)
  else
    inColor

/-- `vec4 territoryColor()`: the per-fragment territory shading. -/
def territoryColor (env : FragEnv) : Vec4Q :=
  let thisTile := ThisTile env
  let result :=
    if thisTile.isFallout then
      ⟨env.u_falloutColor.r, env.u_falloutColor.g, env.u_falloutColor.b, env.u_territoryAlpha⟩
    else if thisTile.ownerId == UNOWNED_TERRITORY_ID then
      (⟨0, 0, 0, 0⟩ : Vec4Q)
    else if isBorder env thisTile.ownerId then
      calculateBorderColor env thisTile
    else
      getPlayerColor env thisTile.ownerId PLAYER_COLOR_TERRITORY
  if env.debug_draw_tiles then DebugDrawTileData env result else result

end TerritoryShader

/-- An RGBA color whose channels are byte values, as stored in a
`colord` `RgbaColor` and in the palette texture rows. -/
structure RgbaByte where
  r : Nat
  g : Nat
  b : Nat
  a : Nat
deriving DecidableEq

namespace TextureDataM

/-- A JS `number` that may be `NaN` (`none`): indexing a primitive
number (`this.stride[0]`) yields `undefined`, and arithmetic involving
`undefined` yields `NaN`. -/
def JsNum : Type := Option ℚ

/-- JS multiplication lifted to possibly-`NaN` numbers. -/
def jsMul : JsNum → JsNum → JsNum
  | some a, some b => some (a * b)
  | _, _ => none

/-- JS addition lifted to possibly-`NaN` numbers. -/
def jsAdd : JsNum → JsNum → JsNum
  | some a, some b => some (a + b)
  | _, _ => none

/-- The CPU-visible fields of a `TextureData`: dimensions, bytes per
pixel, and the byte buffer (`stride = bpp * width` as set by the
constructor). -/
structure TextureData where
  width : Nat
  height : Nat
  bpp : Nat
  bytes : List Nat

/-- `this.stride` as computed by the constructor. -/
def TextureData.stride (td : TextureData) : Nat := td.bpp * td.width

/-- `getRowIndex(row) { return row * this.stride[0]; }` — `this.stride`
is a primitive number, so `this.stride[0]` is `undefined` and the
product is `NaN`. -/
def getRowIndex (td : TextureData) (row : ℚ) : JsNum :=
  jsMul (some row) ((none : JsNum))

/-- `setBytes(bytes, offset = 0)`: copies the source into the buffer
with `this.bytes.set(bytes, 0)` — the `offset` parameter is ignored and
the copy always starts at position 0.  (A source longer than the buffer
would throw a `RangeError` in JS; the model leaves the buffer unchanged
in that case, which no claim exercises.) -/
def setBytes (buf data : List Nat) (offset : JsNum) : List Nat :=
  if data.length ≤ buf.length then data ++ buf.drop data.length else buf

/-- `setRow(row, data) { this.setBytes(data, this.getRowIndex(row)); }` -/
def setRow (td : TextureData) (row : ℚ) (data : List Nat) : List Nat :=
  setBytes td.bytes data (getRowIndex td row)

/-- An element write `arr[idx] = v` on a JS typed array: the write is
silently ignored unless `idx` is a non-negative integer index within
bounds (in particular a `NaN` index is ignored). -/
def jsTypedArrayWrite (buf : List Nat) : JsNum → Nat → List Nat
  | none, _ => buf
  | some q, v =>
    if q.den = 1 ∧ 0 ≤ q.num ∧ q.num.toNat < buf.length then buf.set q.num.toNat v else buf

/-- `setPixelRgba(x, y, rgba)`: four channel writes at
`getRowIndex(y) + x * bpp + 0 … + 3`. -/
def setPixelRgba (td : TextureData) (x y : ℚ) (rgba : RgbaByte) : List Nat :=
  let index := jsAdd (getRowIndex td y) (some (x * (td.bpp : ℚ)))
  let b0 := jsTypedArrayWrite td.bytes (jsAdd index (some 0)) rgba.r
  let b1 := jsTypedArrayWrite b0 (jsAdd index (some 1)) rgba.g
  let b2 := jsTypedArrayWrite b1 (jsAdd index (some 2)) rgba.b
  jsTypedArrayWrite b2 (jsAdd index (some 3)) rgba.a

end TextureDataM

namespace ColorPaletteM

/-- `const MAX_UNIQUE_PLAYER_COLORS = 1 << 12;` -/
def MAX_UNIQUE_PLAYER_COLORS : Nat := 1 <<< 12

/-- `const PALETTE_TEXTURE_HEIGHT = 6;` -/
def PALETTE_TEXTURE_HEIGHT : Nat := 6

/-- The pair returned by `theme.defendedBorderColors(player)`. -/
structure DefendedColors where
  light : RgbaByte
  dark : RgbaByte
deriving DecidableEq

/-- The per-player color lookups of a `Theme`, keyed by the player's
small ID (the composition `theme.xColor(game.playerBySmallID(id))` of
the source), plus the global colors the palette update reads. -/
structure ThemeData where
  territoryColor : Nat → RgbaByte
  specialBuildingColor : Nat → RgbaByte
  railroadColor : Nat → RgbaByte
  borderColor : Nat → RgbaByte
  defendedBorderColors : Nat → DefendedColors
  focusedBorderColor : RgbaByte
  falloutColor : RgbaByte

/-- The game state the palette reads: the active theme (JS object
identity of `game.config().theme()` modelled by `themeId`), and the
small IDs of `game.playerViews()`. -/
structure GameState where
  themeId : Nat
  themes : Nat → ThemeData
  players : List Nat

/-- `playerViews().length`. -/
def GameState.playerCount (g : GameState) : Nat := g.players.length

/-- `players.reduce((max, player) => Math.max(max, player.smallID()), 0)`. -/
def GameState.maxSmallId (g : GameState) : Nat := g.players.foldl (fun m s => max m s) 0

/-- The `uniforms` record of `ColorPalette` (`none` = key absent). -/
structure PaletteUniforms where
  u_borderAlpha : Option ℚ
  u_territoryAlpha : Option ℚ
  u_focusedBorderColor : Option RgbaByte
  u_falloutColor : Option RgbaByte
deriving DecidableEq

/-- The mutable state of a `ColorPalette` after `init` (the `game` and
`textureData` references are set; `previousTheme`/`previousPlayerCount`
start out `undefined`, modelled as `none`). -/
structure ColorPalette where
  previousTheme : Option Nat
  previousPlayerCount : Option Nat
  bytes : Nat → Nat
  uniforms : PaletteUniforms
  needsGpuUpload : Bool

/-- `needsCpuUpdate()`: dirty checking against the previous theme
object identity and player count. -/
def needsCpuUpdate (g : GameState) (p : ColorPalette) : Bool :=
  if p.previousTheme == some g.themeId && p.previousPlayerCount == some g.playerCount then
    false
  else
    true

/-- One JS assignment `bytes[i] = v` into the palette byte buffer. -/
def writeByte (bytes : Nat → Nat) (i v : Nat) : Nat → Nat :=
  fun j => if j = i then v else bytes j

/-- The four channel assignments `bytes[base+0..3] = c.r/g/b/a` of one
palette color. -/
def writeRgba (bytes : Nat → Nat) (base : Nat) (c : RgbaByte) : Nat → Nat :=
  writeByte (writeByte (writeByte (writeByte bytes (base + 0) c.r) (base + 1) c.g)
    (base + 2) c.b) (base + 3) c.a

/-- The body of one iteration of the `updateCpuData` loop: write the
six palette rows of column `x` (`row_player_color = 0 * stride` …
`row_border_defended_dark = 5 * stride`, `stride = width * bpp`,
`bpp = 4`). -/
def writeColumn (theme : ThemeData) (bytes : Nat → Nat) (x : Nat) : Nat → Nat :=
  let bpp := 4
  let stride := MAX_UNIQUE_PLAYER_COLORS * bpp
  let b1 := writeRgba bytes (0 * stride + x * bpp) (theme.territoryColor x)
  let b2 := writeRgba b1 (1 * stride + x * bpp) (theme.specialBuildingColor x)
  let b3 := writeRgba b2 (2 * stride + x * bpp) (theme.railroadColor x)
  let b4 := writeRgba b3 (3 * stride + x * bpp) (theme.borderColor x)
  let b5 := writeRgba b4 (4 * stride + x * bpp) (theme.defendedBorderColors x).light
  writeRgba b5 (5 * stride + x * bpp) (theme.defendedBorderColors x).dark

/-- `for (let smallId = 1; smallId <= paletteMaxColor; smallId++)`:
`fillColumns theme bytes n` is the buffer after the iterations
`smallId = 1 … n`, in ascending order. -/
def fillColumns (theme : ThemeData) (bytes : Nat → Nat) : Nat → (Nat → Nat)
  | 0 => bytes
  | n + 1 => writeColumn theme (fillColumns theme bytes n) (n + 1)

/-- `updateCpuData()`: dirty-checked rebuild of the palette byte buffer
and the uniforms record.  (The `game === null` / `textureData === null`
guards of the source cannot fire after `init` and are not modelled;
`paletteMaxColor = Math.min(width, maxSmallId)` with `width = 4096`.) -/
def updateCpuData (g : GameState) (p : ColorPalette) : ColorPalette :=
  if needsCpuUpdate g p then
    let theme := g.themes g.themeId
    let paletteMaxColor := min MAX_UNIQUE_PLAYER_COLORS g.maxSmallId
    { previousTheme := some g.themeId
      previousPlayerCount := some g.playerCount
      bytes := fillColumns theme p.bytes paletteMaxColor
      uniforms :=
        { u_borderAlpha := some (255 / 255 : ℚ)
          u_territoryAlpha := some (150 / 255 : ℚ)
          u_focusedBorderColor := some theme.focusedBorderColor
          u_falloutColor := some theme.falloutColor }
      needsGpuUpload := true }
  else
    p

/-- The stride of the palette texture (`width * bpp`). -/
def paletteStride : Nat := MAX_UNIQUE_PLAYER_COLORS * 4

/-- The RGBA texel of the palette buffer at column `x`, row `row`
(row-major layout, 4 bytes per pixel). -/
def paletteColumn (bytes : Nat → Nat) (x row : Nat) : RgbaByte where
  r := bytes (row * paletteStride + x * 4)
  g := bytes (row * paletteStride + x * 4 + 1)
  b := bytes (row * paletteStride + x * 4 + 2)
  a := bytes (row * paletteStride + x * 4 + 3)

end ColorPaletteM

namespace TerritoryShader

/-- The environment of claim C1's counterexample: the fragment's tile
word is `8192` (ownerId `0`, fallout flag set), the fallout color is
red, debug drawing is off. -/
def envUnownedFallout : FragEnv where
  tile := fun _ _ => 8192
  px := 0
  py := 0
  palette := fun _ _ => ⟨0, 0, 0, 0⟩
  u_hasFocusedPlayer := 0
  u_focusedPlayerId := 0
  u_territoryAlpha := 150 / 255
  u_borderAlpha := 1
  u_focusedBorderColor := ⟨0, 0, 0⟩
  u_falloutColor := ⟨1, 0, 0⟩
  debug_draw_tiles := false

/-- The environment of claim C1's witness: every tile word is `16384`
(ownerId `0`, defense-bonus flag set, fallout clear). -/
def envUnownedDefended : FragEnv where
  tile := fun _ _ => 16384
  px := 3
  py := 5
  palette := fun _ _ => ⟨1, 1, 1, 1⟩
  u_hasFocusedPlayer := 1
  u_focusedPlayerId := 2
  u_territoryAlpha := 150 / 255
  u_borderAlpha := 1
  u_focusedBorderColor := ⟨1, 1, 0⟩
  u_falloutColor := ⟨1, 0, 0⟩
  debug_draw_tiles := false

end TerritoryShader

open TerritoryShader in
/-- C1 (counterexample): the claim "a tile whose decoded ownerId is 0
always paints fully transparent regardless of the fallout flag" is
false: at tile word `8192` the decoded ownerId is `0`, yet
`territoryColor` paints the fallout color (the fallout branch is tested
first), not `vec4(0.0)`. -/
theorem territoryColor_unowned_fallout_not_transparent :
    (ThisTile envUnownedFallout).ownerId = UNOWNED_TERRITORY_ID ∧
      territoryColor envUnownedFallout ≠ ⟨0, 0, 0, 0⟩ := by
  exact ⟨by decide, by decide⟩

open TerritoryShader in
/-- C1 (amended): with the fallout flag clear and debug tile drawing
off, a fragment whose decoded ownerId is the unowned sentinel `0` is
painted fully transparent (`vec4(0.0)`) by `territoryColor`, regardless
of the defense-bonus flag. -/
theorem territoryColor_unowned_transparent (env : FragEnv)
    (hf : (ThisTile env).isFallout = false)
    (ho : (ThisTile env).ownerId = UNOWNED_TERRITORY_ID)
    (hd : env.debug_draw_tiles = false) :
    territoryColor env = ⟨0, 0, 0, 0⟩ := by
  simp [territoryColor, hf, ho, hd]

open TerritoryShader in
/-- C1 (witness): the amended theorem applies to the concrete
environment whose tile word is `16384` (unowned, defense bonus set). -/
theorem territoryColor_unowned_transparent_witness :
    (ThisTile envUnownedDefended).isFallout = false ∧
      (ThisTile envUnownedDefended).ownerId = UNOWNED_TERRITORY_ID ∧
      (ThisTile envUnownedDefended).hasDefenseBonus = true ∧
      envUnownedDefended.debug_draw_tiles = false ∧
      territoryColor envUnownedDefended = ⟨0, 0, 0, 0⟩ :=
  ⟨by decide, by decide, by decide, rfl,
    territoryColor_unowned_transparent envUnownedDefended (by decide) (by decide) rfl⟩

open TerritoryShader in
/-- C2: decoding the 16-bit word
`ownerId | isFallout<<13 | hasDefenseBonus<<14` with `DecodeTileData`
recovers exactly the triple `(ownerId, isFallout, hasDefenseBonus)`
for every `ownerId < 4096` and both flags. -/
theorem decode_encode_roundtrip (ownerId : Nat) (h : ownerId < 4096) (f d : Bool) :
    DecodeTileData (encodeTileWord ownerId f d) = ⟨ownerId, f, d⟩ := by
  have hbits : ∀ i, 12 ≤ i → ownerId.testBit i = false := by
    intro i hi
    apply Nat.testBit_lt_two_pow
    calc ownerId < 4096 := h
      _ = 2 ^ 12 := by norm_num
      _ ≤ 2 ^ i := Nat.pow_le_pow_right (by norm_num) hi
  have henc : ∀ i, (encodeTileWord ownerId f d).testBit i =
      (ownerId.testBit i || (decide (i ≥ 13) && (if f then 1 else 0).testBit (i - 13))
        || (decide (i ≥ 14) && (if d then 1 else 0).testBit (i - 14))) := by
    intro i
    unfold encodeTileWord
    rw [Nat.testBit_lor, Nat.testBit_lor, Nat.testBit_shiftLeft, Nat.testBit_shiftLeft]
  have howner : encodeTileWord ownerId f d &&& OWNER_ID_MASK = ownerId := by
    apply Nat.eq_of_testBit_eq
    intro i
    rw [Nat.testBit_land, henc i]
    show _ = ownerId.testBit i
    have hmask : OWNER_ID_MASK = 2 ^ 12 - 1 := by decide
    rw [hmask, Nat.testBit_two_pow_sub_one]
    by_cases hi : i < 12
    · have h13 : ¬ (i ≥ 13) := by omega
      have h14 : ¬ (i ≥ 14) := by omega
      simp [hi, h13, h14]
    · simp [hi, hbits i (by omega)]
  have hf13 : (encodeTileWord ownerId f d).testBit 13 = f := by
    rw [henc 13, hbits 13 (by omega)]
    cases f <;> cases d <;> decide
  have hd14 : (encodeTileWord ownerId f d).testBit 14 = d := by
    rw [henc 14, hbits 14 (by omega)]
    cases f <;> cases d <;> decide
  have hfall : encodeTileWord ownerId f d &&& FALLOUT_MASK = f.toNat * 2 ^ 13 := by
    have hm : FALLOUT_MASK = 2 ^ 13 := by decide
    rw [hm, Nat.and_two_pow, hf13]
  have hdef : encodeTileWord ownerId f d &&& DEFENSE_BONUS_MASK = d.toNat * 2 ^ 14 := by
    have hm : DEFENSE_BONUS_MASK = 2 ^ 14 := by decide
    rw [hm, Nat.and_two_pow, hd14]
  simp only [DecodeTileData, TileData.mk.injEq]
  refine ⟨howner, ?_, ?_⟩
  · rw [hfall]; cases f <;> simp
  · rw [hdef]; cases d <;> simp

open TerritoryShader in
/-- C2 (witness): the round-trip theorem at `ownerId = 4095` with both
flags set. -/
theorem decode_encode_roundtrip_witness :
    (4095 : Nat) < 4096 ∧
      DecodeTileData (encodeTileWord 4095 true true) = ⟨4095, true, true⟩ :=
  ⟨by decide, decode_encode_roundtrip 4095 (by decide) true true⟩

open TerritoryShader in
/-- C3: `isBorder`, invoked on the fragment's decoded ownerId, returns
`false` exactly when the ownerId fields (the low 12 bits) of all four
axis-aligned neighbors equal the fragment's ownerId; equivalently it
returns `true` as soon as at least one neighbor's ownerId field
differs. -/
theorem isBorder_false_iff_neighbors_match (env : FragEnv) :
    isBorder env (ThisTile env).ownerId = false ↔
      (env.tile ((env.px : Int) - 1) (env.py : Int) &&& OWNER_ID_MASK = (ThisTile env).ownerId ∧
        env.tile ((env.px : Int) + 1) (env.py : Int) &&& OWNER_ID_MASK = (ThisTile env).ownerId ∧
        env.tile (env.px : Int) ((env.py : Int) - 1) &&& OWNER_ID_MASK = (ThisTile env).ownerId ∧
        env.tile (env.px : Int) ((env.py : Int) + 1) &&& OWNER_ID_MASK = (ThisTile env).ownerId) := by
  simp [isBorder, and_assoc]

open TerritoryShader in
/-- C10: `DecodeTileData` depends only on bits 0–11, 13 and 14 of the
input word: two 16-bit words that agree on those bits (they may differ
in bit 12 and/or bit 15) decode to identical triples. -/
theorem decode_ignores_bits_12_15 (w1 w2 : Nat) (h1 : w1 < 2 ^ 16) (h2 : w2 < 2 ^ 16)
    (hagree : ∀ i < 16, i ≠ 12 → i ≠ 15 → w1.testBit i = w2.testBit i) :
    DecodeTileData w1 = DecodeTileData w2 := by
  have hhigh : ∀ w : Nat, w < 2 ^ 16 → ∀ i, 16 ≤ i → w.testBit i = false := by
    intro w hw i hi
    apply Nat.testBit_lt_two_pow
    exact lt_of_lt_of_le hw (Nat.pow_le_pow_right (by norm_num) hi)
  have hag : ∀ i, i ≠ 12 → i ≠ 15 → w1.testBit i = w2.testBit i := by
    intro i hi12 hi15
    by_cases hi : i < 16
    · exact hagree i hi hi12 hi15
    · rw [hhigh w1 h1 i (by omega), hhigh w2 h2 i (by omega)]
  simp only [DecodeTileData, TileData.mk.injEq]
  refine ⟨?_, ?_, ?_⟩
  · apply Nat.eq_of_testBit_eq
    intro i
    rw [Nat.testBit_land, Nat.testBit_land]
    have hmask : OWNER_ID_MASK = 2 ^ 12 - 1 := by decide
    rw [hmask, Nat.testBit_two_pow_sub_one]
    by_cases hi : i < 12
    · rw [hag i (by omega) (by omega)]
    · simp [hi]
  · have hm : FALLOUT_MASK = 2 ^ 13 := by decide
    rw [hm, Nat.and_two_pow, Nat.and_two_pow, hag 13 (by omega) (by omega)]
  · have hm : DEFENSE_BONUS_MASK = 2 ^ 14 := by decide
    rw [hm, Nat.and_two_pow, Nat.and_two_pow, hag 14 (by omega) (by omega)]

open TerritoryShader in
/-- C10 (witness): the words `4096` (bit 12 only) and `32768` (bit 15
only) agree on bits 0–11, 13, 14, differ in bits 12 and 15, and decode
identically. -/
theorem decode_ignores_bits_12_15_witness :
    (4096 : Nat) < 2 ^ 16 ∧ (32768 : Nat) < 2 ^ 16 ∧
      (4096 : Nat).testBit 12 ≠ (32768 : Nat).testBit 12 ∧
      (4096 : Nat).testBit 15 ≠ (32768 : Nat).testBit 15 ∧
      DecodeTileData 4096 = DecodeTileData 32768 :=
  ⟨by decide, by decide, by decide, by decide,
    decode_ignores_bits_12_15 4096 32768 (by decide) (by decide) (by decide)⟩

open TextureDataM in
/-- C5 (code bug): `setRow` does not write at byte offset
`row * stride` — `getRowIndex` evaluates `row * this.stride[0]`, which
is `NaN`, and `setBytes` ignores its `offset` parameter and always
copies at position 0 — so the `row` argument is irrelevant and
`setRow 1` clobbers row 0; and `setPixelRgba` never writes at all
(every index is `NaN`, and typed-array writes at `NaN` are silently
ignored).  Concretely, on a 2×2 one-byte-per-pixel texture with bytes
`[1,2,3,4]`, `setRow 1 [9,9]` yields `[9,9,3,4]` instead of the
intended `[1,2,9,9]`. -/
theorem setRow_setPixelRgba_broken :
    (∀ (td : TextureData) (r1 r2 : ℚ) (data : List Nat),
      setRow td r1 data = setRow td r2 data) ∧
    (∀ (td : TextureData) (x y : ℚ) (rgba : RgbaByte),
      setPixelRgba td x y rgba = td.bytes) ∧
    setRow ⟨2, 2, 1, [1, 2, 3, 4]⟩ 1 [9, 9] = [9, 9, 3, 4] := by
  refine ⟨fun td r1 r2 data => rfl, fun td x y rgba => ?_, by decide⟩
  simp [setPixelRgba, jsTypedArrayWrite, jsAdd, jsMul, getRowIndex]

/-- The channel of an `RgbaByte` at byte offset `ch` within the pixel. -/
def RgbaByte.channel (c : RgbaByte) : Nat → Nat
  | 0 => c.r
  | 1 => c.g
  | 2 => c.b
  | _ => c.a

namespace ColorPaletteM

/-- The color `updateCpuData` stores in palette row `row` of a player's
column. -/
def rowColor (theme : ThemeData) (x : Nat) : Nat → RgbaByte
  | 0 => theme.territoryColor x
  | 1 => theme.specialBuildingColor x
  | 2 => theme.railroadColor x
  | 3 => theme.borderColor x
  | 4 => (theme.defendedBorderColors x).light
  | _ => (theme.defendedBorderColors x).dark

theorem writeRgba_out (bytes : Nat → Nat) (base : Nat) (c : RgbaByte) (j : Nat)
    (h : j < base ∨ base + 3 < j) : writeRgba bytes base c j = bytes j := by
  unfold writeRgba writeByte
  rw [if_neg (by omega), if_neg (by omega), if_neg (by omega), if_neg (by omega)]

theorem writeRgba_read (bytes : Nat → Nat) (base : Nat) (c : RgbaByte) (ch : Nat)
    (hch : ch ≤ 3) : writeRgba bytes base c (base + ch) = c.channel ch := by
  interval_cases ch <;> simp [writeRgba, writeByte, RgbaByte.channel]

theorem writeColumn_unfold (theme : ThemeData) (bytes : Nat → Nat) (x : Nat) :
    writeColumn theme bytes x =
      writeRgba (writeRgba (writeRgba (writeRgba (writeRgba (writeRgba bytes
        (x * 4) (theme.territoryColor x))
        (16384 + x * 4) (theme.specialBuildingColor x))
        (32768 + x * 4) (theme.railroadColor x))
        (49152 + x * 4) (theme.borderColor x))
        (65536 + x * 4) (theme.defendedBorderColors x).light)
        (81920 + x * 4) (theme.defendedBorderColors x).dark := by
  simp only [writeColumn, MAX_UNIQUE_PLAYER_COLORS]
  norm_num [Nat.one_shiftLeft]

theorem writeColumn_out (theme : ThemeData) (bytes : Nat → Nat) (y : Nat) (hy : y ≤ 4096)
    (row x ch : Nat) (hrow : row ≤ 5) (hch : ch ≤ 3) (hx1 : 1 ≤ x) (hx : x ≤ 4095)
    (hne : x ≠ y) :
    writeColumn theme bytes y (row * 16384 + x * 4 + ch) =
      bytes (row * 16384 + x * 4 + ch) := by
  rw [writeColumn_unfold]
  rw [writeRgba_out _ (81920 + y * 4) _ (row * 16384 + x * 4 + ch) (by omega),
      writeRgba_out _ (65536 + y * 4) _ (row * 16384 + x * 4 + ch) (by omega),
      writeRgba_out _ (49152 + y * 4) _ (row * 16384 + x * 4 + ch) (by omega),
      writeRgba_out _ (32768 + y * 4) _ (row * 16384 + x * 4 + ch) (by omega),
      writeRgba_out _ (16384 + y * 4) _ (row * 16384 + x * 4 + ch) (by omega),
      writeRgba_out _ (y * 4) _ (row * 16384 + x * 4 + ch) (by omega)]

theorem writeColumn_own (theme : ThemeData) (bytes : Nat → Nat) (x : Nat)
    (hx2 : x ≤ 4095) (row ch : Nat) (hrow : row ≤ 5) (hch : ch ≤ 3) :
    writeColumn theme bytes x (row * 16384 + x * 4 + ch) =
      (rowColor theme x row).channel ch := by
  rw [writeColumn_unfold]
  interval_cases row
  · rw [writeRgba_out _ (81920 + x * 4) _ (0 * 16384 + x * 4 + ch) (by omega),
        writeRgba_out _ (65536 + x * 4) _ (0 * 16384 + x * 4 + ch) (by omega),
        writeRgba_out _ (49152 + x * 4) _ (0 * 16384 + x * 4 + ch) (by omega),
        writeRgba_out _ (32768 + x * 4) _ (0 * 16384 + x * 4 + ch) (by omega),
        writeRgba_out _ (16384 + x * 4) _ (0 * 16384 + x * 4 + ch) (by omega),
        show 0 * 16384 + x * 4 + ch = x * 4 + ch by ring,
        writeRgba_read _ _ _ _ hch]
    rfl
  · rw [writeRgba_out _ (81920 + x * 4) _ (1 * 16384 + x * 4 + ch) (by omega),
        writeRgba_out _ (65536 + x * 4) _ (1 * 16384 + x * 4 + ch) (by omega),
        writeRgba_out _ (49152 + x * 4) _ (1 * 16384 + x * 4 + ch) (by omega),
        writeRgba_out _ (32768 + x * 4) _ (1 * 16384 + x * 4 + ch) (by omega),
        show 1 * 16384 + x * 4 + ch = 16384 + x * 4 + ch by ring,
        writeRgba_read _ _ _ _ hch]
    rfl
  · rw [writeRgba_out _ (81920 + x * 4) _ (2 * 16384 + x * 4 + ch) (by omega),
        writeRgba_out _ (65536 + x * 4) _ (2 * 16384 + x * 4 + ch) (by omega),
        writeRgba_out _ (49152 + x * 4) _ (2 * 16384 + x * 4 + ch) (by omega),
        show 2 * 16384 + x * 4 + ch = 32768 + x * 4 + ch by ring,
        writeRgba_read _ _ _ _ hch]
    rfl
  · rw [writeRgba_out _ (81920 + x * 4) _ (3 * 16384 + x * 4 + ch) (by omega),
        writeRgba_out _ (65536 + x * 4) _ (3 * 16384 + x * 4 + ch) (by omega),
        show 3 * 16384 + x * 4 + ch = 49152 + x * 4 + ch by ring,
        writeRgba_read _ _ _ _ hch]
    rfl
  · rw [writeRgba_out _ (81920 + x * 4) _ (4 * 16384 + x * 4 + ch) (by omega),
        show 4 * 16384 + x * 4 + ch = 65536 + x * 4 + ch by ring,
        writeRgba_read _ _ _ _ hch]
    rfl
  · rw [show 5 * 16384 + x * 4 + ch = 81920 + x * 4 + ch by ring,
        writeRgba_read _ _ _ _ hch]
    rfl

theorem fillColumns_read (theme : ThemeData) (bytes : Nat → Nat) (n : Nat) (hn : n ≤ 4096)
    (x : Nat) (hx1 : 1 ≤ x) (hx2 : x ≤ 4095) (hxn : x ≤ n) (row ch : Nat)
    (hrow : row ≤ 5) (hch : ch ≤ 3) :
    fillColumns theme bytes n (row * 16384 + x * 4 + ch) =
      (rowColor theme x row).channel ch := by
  induction n with
  | zero => omega
  | succ k ih =>
    show writeColumn theme (fillColumns theme bytes k) (k + 1) _ = _
    by_cases hx : x = k + 1
    · subst hx
      exact writeColumn_own theme _ _ hx2 row ch hrow hch
    · rw [writeColumn_out theme _ (k + 1) (by omega) row x ch hrow hch hx1 hx2 hx]
      exact ih (by omega) (by omega)

theorem fillColumns_column (theme : ThemeData) (bytes : Nat → Nat) (n : Nat)
    (hn : n ≤ 4096) (x : Nat) (hx1 : 1 ≤ x) (hx2 : x ≤ 4095) (hxn : x ≤ n)
    (row : Nat) (hrow : row ≤ 5) :
    paletteColumn (fillColumns theme bytes n) x row = rowColor theme x row := by
  have h0 := fillColumns_read theme bytes n hn x hx1 hx2 hxn row 0 hrow (by omega)
  have h1 := fillColumns_read theme bytes n hn x hx1 hx2 hxn row 1 hrow (by omega)
  have h2 := fillColumns_read theme bytes n hn x hx1 hx2 hxn row 2 hrow (by omega)
  have h3 := fillColumns_read theme bytes n hn x hx1 hx2 hxn row 3 hrow (by omega)
  simp only [Nat.add_zero] at h0
  rcases hc : rowColor theme x row with ⟨r, g, b, a⟩
  rw [hc] at h0 h1 h2 h3
  simp only [paletteColumn, RgbaByte.mk.injEq]
  have hs : paletteStride = 16384 := by decide
  rw [hs]
  exact ⟨h0, h1, h2, h3⟩

end ColorPaletteM

namespace ColorPaletteM

theorem needsCpuUpdate_false_iff (g : GameState) (p : ColorPalette) :
    needsCpuUpdate g p = false ↔
      (p.previousTheme = some g.themeId ∧ p.previousPlayerCount = some g.playerCount) := by
  unfold needsCpuUpdate
  split
  · next h => simp_all
  · next h => simp_all

theorem updateCpuData_clean (g : GameState) (p : ColorPalette)
    (h : needsCpuUpdate g p = false) : updateCpuData g p = p := by
  simp [updateCpuData, h]

/-- The theme of claim C4's and C8's witnesses. -/
def themeEx : ThemeData where
  territoryColor := fun _ => ⟨10, 20, 30, 40⟩
  specialBuildingColor := fun _ => ⟨11, 21, 31, 41⟩
  railroadColor := fun _ => ⟨12, 22, 32, 42⟩
  borderColor := fun _ => ⟨13, 23, 33, 43⟩
  defendedBorderColors := fun _ => ⟨⟨14, 24, 34, 44⟩, ⟨15, 25, 35, 45⟩⟩
  focusedBorderColor := ⟨1, 2, 3, 4⟩
  falloutColor := ⟨5, 6, 7, 8⟩

/-- A game with one player of small ID 1. -/
def gameEx : GameState where
  themeId := 0
  themes := fun _ => themeEx
  players := [1]

/-- A freshly initialized palette (nothing cached, zeroed buffer). -/
def paletteEx : ColorPalette where
  previousTheme := none
  previousPlayerCount := none
  bytes := fun _ => 0
  uniforms := ⟨none, none, none, none⟩
  needsGpuUpload := false

end ColorPaletteM

open ColorPaletteM in
/-- C4: after a dirty `updateCpuData`, for every player small ID `x`
with `1 ≤ x ≤ 4095` that belongs to an existing player
(`x ≤ maxSmallId`), the palette texture column at `x` holds, in rows 0
through 5, exactly the theme's territory, special-building, railroad,
undefended-border, defended-border-light and defended-border-dark
colors for that player. -/
theorem updateCpuData_palette_column (g : GameState) (p : ColorPalette)
    (hdirty : needsCpuUpdate g p = true) (x : Nat) (hx1 : 1 ≤ x) (hx2 : x ≤ 4095)
    (hxm : x ≤ g.maxSmallId) :
    paletteColumn (updateCpuData g p).bytes x 0 = (g.themes g.themeId).territoryColor x ∧
    paletteColumn (updateCpuData g p).bytes x 1 = (g.themes g.themeId).specialBuildingColor x ∧
    paletteColumn (updateCpuData g p).bytes x 2 = (g.themes g.themeId).railroadColor x ∧
    paletteColumn (updateCpuData g p).bytes x 3 = (g.themes g.themeId).borderColor x ∧
    paletteColumn (updateCpuData g p).bytes x 4 =
      ((g.themes g.themeId).defendedBorderColors x).light ∧
    paletteColumn (updateCpuData g p).bytes x 5 =
      ((g.themes g.themeId).defendedBorderColors x).dark := by
  have hM : MAX_UNIQUE_PLAYER_COLORS = 4096 := by decide
  have hbytes : (updateCpuData g p).bytes =
      fillColumns (g.themes g.themeId) p.bytes (min MAX_UNIQUE_PLAYER_COLORS g.maxSmallId) := by
    simp [updateCpuData, hdirty]
  have hcol : ∀ row, row ≤ 5 →
      paletteColumn (updateCpuData g p).bytes x row = rowColor (g.themes g.themeId) x row := by
    intro row hrow
    rw [hbytes]
    exact fillColumns_column _ _ _ (by rw [hM]; exact Nat.min_le_left _ _) x hx1 hx2
      (by rw [hM]; exact le_min (by omega) hxm) row hrow
  exact ⟨hcol 0 (by omega), hcol 1 (by omega), hcol 2 (by omega), hcol 3 (by omega),
    hcol 4 (by omega), hcol 5 (by omega)⟩

open ColorPaletteM in
/-- C4 (witness): the palette-column theorem applied to a fresh palette
and a one-player game, at small ID 1. -/
theorem updateCpuData_palette_column_witness :
    needsCpuUpdate gameEx paletteEx = true ∧ 1 ≤ gameEx.maxSmallId ∧
      (paletteColumn (updateCpuData gameEx paletteEx).bytes 1 0 = themeEx.territoryColor 1 ∧
        paletteColumn (updateCpuData gameEx paletteEx).bytes 1 1 = themeEx.specialBuildingColor 1 ∧
        paletteColumn (updateCpuData gameEx paletteEx).bytes 1 2 = themeEx.railroadColor 1 ∧
        paletteColumn (updateCpuData gameEx paletteEx).bytes 1 3 = themeEx.borderColor 1 ∧
        paletteColumn (updateCpuData gameEx paletteEx).bytes 1 4 =
          (themeEx.defendedBorderColors 1).light ∧
        paletteColumn (updateCpuData gameEx paletteEx).bytes 1 5 =
          (themeEx.defendedBorderColors 1).dark) :=
  ⟨by decide, by decide,
    updateCpuData_palette_column gameEx paletteEx (by decide) 1 (by decide) (by decide)
      (by decide)⟩

open ColorPaletteM in
/-- C8: if `updateCpuData` is called twice and between the calls the
game's theme object and player count are unchanged, the second call is
a no-op: the resulting state (palette byte buffer, uniforms record,
`needsGpuUpload` flag and cached dirty-check keys) is exactly the state
the first call left. -/
theorem updateCpuData_second_call_noop (g g' : GameState) (p : ColorPalette)
    (htheme : g'.themeId = g.themeId) (hcount : g'.playerCount = g.playerCount) :
    updateCpuData g' (updateCpuData g p) = updateCpuData g p := by
  have key : needsCpuUpdate g' (updateCpuData g p) = false := by
    rw [needsCpuUpdate_false_iff]
    by_cases h : needsCpuUpdate g p = true
    · constructor <;> simp [updateCpuData, h, htheme, hcount]
    · have hfalse : needsCpuUpdate g p = false := by
        revert h; cases needsCpuUpdate g p <;> simp
      obtain ⟨h1, h2⟩ := (needsCpuUpdate_false_iff g p).mp hfalse
      rw [updateCpuData_clean g p hfalse, htheme, hcount]
      exact ⟨h1, h2⟩
  exact updateCpuData_clean g' _ key

open ColorPaletteM in
/-- C8 (witness): the idempotence theorem applied to the concrete
one-player game and fresh palette. -/
theorem updateCpuData_second_call_noop_witness :
    gameEx.themeId = gameEx.themeId ∧ gameEx.playerCount = gameEx.playerCount ∧
      updateCpuData gameEx (updateCpuData gameEx paletteEx) = updateCpuData gameEx paletteEx :=
  ⟨rfl, rfl, updateCpuData_second_call_noop gameEx gameEx paletteEx rfl rfl⟩

namespace UniformSetterM

/-- The channels of an object exposing `.rgba` (a `colord` `RgbaColor`);
the alpha channel may be `undefined` (`none`). -/
structure RgbaQ where
  r : ℚ
  g : ℚ
  b : ℚ
  a : Option ℚ
deriving DecidableEq

/-- The runtime shapes `setUniform` distinguishes on its `value`
argument, in the order its `if`/`else if` chain tests them:
`Float32Array`, `Int32Array`, `number`, `boolean`, a plain JS array of
numbers, a `Colord` instance, an object with an `rgba` property, any
other object, any other value. -/
inductive UniformValue where
  | float32Array (v : List ℚ)
  | int32Array (v : List Int)
  | num (x : ℚ)
  | bool (b : Bool)
  | arr (v : List ℚ)
  | colord (rgba : RgbaQ)
  | rgbaObj (rgba : RgbaQ)
  | otherObject
  | otherValue
deriving DecidableEq

/-- The WebGL uniform type enum values the two implementations
dispatch on (a WebGL2 context is assumed, as in the render layer). -/
inductive GlType where
  | SAMPLER_2D
  | SAMPLER_CUBE
  | SAMPLER_2D_ARRAY
  | UNSIGNED_INT_SAMPLER_2D
  | INT_SAMPLER_2D
  | FLOAT
  | INT
  | UNSIGNED_INT
  | BOOL
  | BOOL_VEC2
  | BOOL_VEC3
  | BOOL_VEC4
  | INT_VEC2
  | INT_VEC3
  | INT_VEC4
  | FLOAT_VEC2
  | FLOAT_VEC3
  | FLOAT_VEC4
  | FLOAT_MAT2
  | FLOAT_MAT3
  | FLOAT_MAT4
  | otherType
deriving DecidableEq

/-- The introspected `WebGLActiveInfo` of a uniform. -/
structure UniformInfo where
  type : GlType
  name : String
deriving DecidableEq

/-- The `gl.uniform*` upload calls; float arguments that may receive a
JS `undefined` (an out-of-range array read) are `Option ℚ`. -/
inductive GlCall where
  | uniform1f (x : ℚ)
  | uniform2f (x y : Option ℚ)
  | uniform3f (x y z : Option ℚ)
  | uniform4f (x y z w : Option ℚ)
  | uniform1i (x : Int)
  | uniform2i (x y : Int)
  | uniform3i (x y z : Int)
  | uniform4i (x y z w : Int)
  | uniform1ui (x : Int)
  | uniform1fv (v : List ℚ)
  | uniform2fv (v : List ℚ)
  | uniform3fv (v : List ℚ)
  | uniform4fv (v : List ℚ)
  | uniform1iv (v : List Int)
  | uniform2iv (v : List Int)
  | uniform3iv (v : List Int)
  | uniform4iv (v : List Int)
  | uniformMatrix2fv (v : List ℚ)
  | uniformMatrix3fv (v : List ℚ)
  | uniformMatrix4fv (v : List ℚ)
deriving DecidableEq

/-- The observable outcome of running a piece of JS code: the GPU calls
made, the console messages logged, and an uncaught exception if one is
propagating. -/
structure JsOut where
  calls : List GlCall
  logs : List String
  exn : Option String
deriving DecidableEq

/-- An outcome with no effect. -/
def emptyOut : JsOut := ⟨[], [], none⟩

/-- An outcome of exactly one GPU call. -/
def callOut (c : GlCall) : JsOut := ⟨[c], [], none⟩

/-- An outcome of one `console` message and an early return. -/
def logOut (msg : String) : JsOut := ⟨[], [msg], none⟩

/-- A `throw new Error(msg)` before any GPU call. -/
def throwOut (msg : String) : JsOut := ⟨[], [], some msg⟩

/-- `Math.floor` on a JS number. -/
def jsFloor (q : ℚ) : Int := ⌊q⌋

/-- `x | 0`: ToInt32 — truncation toward zero, wrapped into the signed
32-bit range. -/
def jsToInt32 (q : ℚ) : Int :=
  let t : Int := if 0 ≤ q then ⌊q⌋ else ⌈q⌉
  let m := t.emod (2 ^ 32)
  if m < 2 ^ 31 then m else m - 2 ^ 32

/-- `x | 0` where `x` may be `undefined` (`undefined | 0 = 0`). -/
def jsOr0 : Option ℚ → Int
  | none => 0
  | some q => jsToInt32 q

end UniformSetterM

namespace UniformSetterM

/-- The `try` body of `setUniform` in
`src/client/graphics/webgl/UniformSetter.ts`: the dispatch on the
value's runtime shape, consulting `uniformInfo` where the source does
and falling back to float uploads where no introspection is
available.  `programBound` is `gl.getParameter(gl.CURRENT_PROGRAM)`
being non-null. -/
def setUniformBodyMain (programBound : Bool) (value : UniformValue)
    (uniformInfo : Option UniformInfo) : JsOut :=
  if !programBound then logOut "No program bound when trying to set uniform"
  else
    match value with
    | .float32Array v =>
      match v.length with
      | 1 => callOut (.uniform1fv v)
      | 2 => callOut (.uniform2fv v)
      | 3 => callOut (.uniform3fv v)
      | 4 => callOut (.uniform4fv v)
      | 9 => callOut (.uniformMatrix3fv v)
      | 16 => callOut (.uniformMatrix4fv v)
      | _ => throwOut "Unsupported Float32Array length"
    | .int32Array v =>
      match v.length with
      | 1 => callOut (.uniform1iv v)
      | 2 => callOut (.uniform2iv v)
      | 3 => callOut (.uniform3iv v)
      | 4 => callOut (.uniform4iv v)
      | _ => throwOut "Unsupported Int32Array length"
    | .num x =>
      match uniformInfo with
      | some info =>
        match info.type with
        | .SAMPLER_2D => callOut (.uniform1i (jsFloor x))
        | .SAMPLER_CUBE => callOut (.uniform1i (jsFloor x))
        | .SAMPLER_2D_ARRAY => callOut (.uniform1i (jsFloor x))
        | .UNSIGNED_INT_SAMPLER_2D => callOut (.uniform1i (jsFloor x))
        | .INT_SAMPLER_2D => callOut (.uniform1i (jsFloor x))
        | .FLOAT => callOut (.uniform1f x)
        | .INT => callOut (.uniform1i (jsFloor x))
        | .INT_VEC2 => throwOut "Tried to set a scalar into a vector field"
        | .INT_VEC3 => throwOut "Tried to set a scalar into a vector field"
        | .INT_VEC4 => throwOut "Tried to set a scalar into a vector field"
        | .UNSIGNED_INT => callOut (.uniform1ui (max 0 (jsFloor x)))
        | .BOOL => callOut (.uniform1i (if x ≠ 0 then 1 else 0))
        | _ => emptyOut
      | none => callOut (.uniform1f x)
    | .bool b => callOut (.uniform1i (if b then 1 else 0))
    | .arr v =>
      match uniformInfo with
      | some info =>
        match info.type with
        | .INT_VEC2 =>
          match v with
          | [a, b] => callOut (.uniform2i (jsFloor a) (jsFloor b))
          | _ => throwOut "Expected 2 values for INT_VEC2"
        | .INT_VEC3 =>
          match v with
          | [a, b, c] => callOut (.uniform3i (jsFloor a) (jsFloor b) (jsFloor c))
          | _ => throwOut "Expected 3 values for INT_VEC3"
        | .INT_VEC4 =>
          match v with
          | [a, b, c, d] =>
            callOut (.uniform4i (jsFloor a) (jsFloor b) (jsFloor c) (jsFloor d))
          | _ => throwOut "Expected 4 values for INT_VEC4"
        | _ =>
          match v with
          | [a, b] => callOut (.uniform2f (some a) (some b))
          | [a, b, c] => callOut (.uniform3f (some a) (some b) (some c))
          | [a, b, c, d] => callOut (.uniform4f (some a) (some b) (some c) (some d))
          | _ => throwOut "Unsupported array length"
      | none =>
        match v with
        | [a, b] => callOut (.uniform2f (some a) (some b))
        | [a, b, c] => callOut (.uniform3f (some a) (some b) (some c))
        | [a, b, c, d] => callOut (.uniform4f (some a) (some b) (some c) (some d))
        | _ => throwOut "Unsupported array length"
    | .colord rgba | .rgbaObj rgba =>
      match uniformInfo with
      | some info =>
        match info.type with
        | .FLOAT_VEC3 =>
          callOut (.uniform3f (some (rgba.r / 255)) (some (rgba.g / 255)) (some (rgba.b / 255)))
        | .FLOAT_VEC4 =>
          let alpha : ℚ := match rgba.a with | some a => a / 255 | none => 1
          callOut (.uniform4f (some (rgba.r / 255)) (some (rgba.g / 255)) (some (rgba.b / 255))
            (some alpha))
        | .INT_VEC3 =>
          callOut (.uniform3i (jsToInt32 rgba.r) (jsToInt32 rgba.g) (jsToInt32 rgba.b))
        | .INT_VEC4 =>
          let alphaInt : ℚ := match rgba.a with | some a => a | none => 255
          callOut (.uniform4i (jsToInt32 rgba.r) (jsToInt32 rgba.g) (jsToInt32 rgba.b)
            (jsToInt32 alphaInt))
        | _ =>
          match rgba.a with
          | none =>
            callOut (.uniform3f (some (rgba.r / 255)) (some (rgba.g / 255)) (some (rgba.b / 255)))
          | some a =>
            if a = 1 ∨ a = 255 then
              callOut (.uniform3f (some (rgba.r / 255)) (some (rgba.g / 255)) (some (rgba.b / 255)))
            else
              callOut (.uniform4f (some (rgba.r / 255)) (some (rgba.g / 255))
                (some (rgba.b / 255)) (some (a / 255)))
      | none =>
        match rgba.a with
        | none =>
          callOut (.uniform3f (some (rgba.r / 255)) (some (rgba.g / 255)) (some (rgba.b / 255)))
        | some a =>
          if a = 1 ∨ a = 255 then
            callOut (.uniform3f (some (rgba.r / 255)) (some (rgba.g / 255)) (some (rgba.b / 255)))
          else
            callOut (.uniform4f (some (rgba.r / 255)) (some (rgba.g / 255)) (some (rgba.b / 255))
              (some (a / 255)))
    | .otherObject => logOut "Unknown object type for uniform"
    | .otherValue => logOut "Failed to set uniform"

/-- `setUniform` of `UniformSetter.ts`: the whole body runs inside
`try { ... } catch (e) { console.error(...) }`, so a thrown error is
converted into a log message and never propagates. -/
def setUniformMain (programBound : Bool) (value : UniformValue)
    (uniformInfo : Option UniformInfo) : JsOut :=
  match setUniformBodyMain programBound value uniformInfo with
  | ⟨calls, logs, none⟩ => ⟨calls, logs, none⟩
  | ⟨calls, logs, some e⟩ =>
    ⟨calls, logs ++ ["Exception setting uniform parameter: " ++ e], none⟩

end UniformSetterM

namespace UniformSetterM

/-- The `try` body of the `setUniform` implementation in the unnamed
companion file: it throws if no introspection info or no location is
available, and otherwise dispatches purely on the declared uniform
type. -/
def setUniformBodyAlt (programBound hasLocation : Bool) (value : UniformValue)
    (uniformInfo : Option UniformInfo) : JsOut :=
  if !programBound then logOut "No program bound when trying to set uniform"
  else
    match uniformInfo with
    | none => throwOut "No uniform info available"
    | some info =>
      if !hasLocation then throwOut "No location available"
      else
        match value with
        | .float32Array v =>
          match v.length with
          | 1 => callOut (.uniform1fv v)
          | 2 => callOut (.uniform2fv v)
          | 3 => callOut (.uniform3fv v)
          | 4 => callOut (.uniform4fv v)
          | 9 => callOut (.uniformMatrix3fv v)
          | 16 => callOut (.uniformMatrix4fv v)
          | _ => throwOut "Unsupported Float32Array length"
        | .int32Array v =>
          match v.length with
          | 1 => callOut (.uniform1iv v)
          | 2 => callOut (.uniform2iv v)
          | 3 => callOut (.uniform3iv v)
          | 4 => callOut (.uniform4iv v)
          | _ => throwOut "Unsupported Int32Array length"
        | .num x =>
          match info.type with
          | .SAMPLER_2D => callOut (.uniform1i (jsToInt32 x))
          | .SAMPLER_CUBE => callOut (.uniform1i (jsToInt32 x))
          | .SAMPLER_2D_ARRAY => callOut (.uniform1i (jsToInt32 x))
          | .UNSIGNED_INT_SAMPLER_2D => callOut (.uniform1i (jsToInt32 x))
          | .INT_SAMPLER_2D => callOut (.uniform1i (jsToInt32 x))
          | .FLOAT => callOut (.uniform1f x)
          | .INT => callOut (.uniform1i (jsToInt32 x))
          | .BOOL => callOut (.uniform1i (if x ≠ 0 then 1 else 0))
          | .INT_VEC2 => throwOut "Tried to set a scalar into a vector field"
          | .INT_VEC3 => throwOut "Tried to set a scalar into a vector field"
          | .INT_VEC4 => throwOut "Tried to set a scalar into a vector field"
          | .UNSIGNED_INT => callOut (.uniform1ui (if x < 0 then 0 else jsToInt32 x))
          | _ => emptyOut
        | .bool b =>
          match info.type with
          | .BOOL => callOut (.uniform1i (if b then 1 else 0))
          | .BOOL_VEC2 => callOut (.uniform2i (if b then 1 else 0) (if b then 1 else 0))
          | .BOOL_VEC3 =>
            callOut (.uniform3i (if b then 1 else 0) (if b then 1 else 0) (if b then 1 else 0))
          | .BOOL_VEC4 =>
            callOut (.uniform4i (if b then 1 else 0) (if b then 1 else 0) (if b then 1 else 0)
              (if b then 1 else 0))
          | _ => throwOut "Unsupported boolean uniform type"
        | .arr v =>
          match info.type with
          | .INT_VEC2 => callOut (.uniform2i (jsOr0 (v.get? 0)) (jsOr0 (v.get? 1)))
          | .INT_VEC3 =>
            callOut (.uniform3i (jsOr0 (v.get? 0)) (jsOr0 (v.get? 1)) (jsOr0 (v.get? 2)))
          | .INT_VEC4 =>
            callOut (.uniform4i (jsOr0 (v.get? 0)) (jsOr0 (v.get? 1)) (jsOr0 (v.get? 2))
              (jsOr0 (v.get? 3)))
          | .FLOAT_VEC2 => callOut (.uniform2f (v.get? 0) (v.get? 1))
          | .FLOAT_VEC3 => callOut (.uniform3f (v.get? 0) (v.get? 1) (v.get? 2))
          | .FLOAT_VEC4 => callOut (.uniform4f (v.get? 0) (v.get? 1) (v.get? 2) (v.get? 3))
          | .FLOAT_MAT2 => callOut (.uniformMatrix2fv v)
          | .FLOAT_MAT3 => callOut (.uniformMatrix3fv v)
          | .FLOAT_MAT4 => callOut (.uniformMatrix4fv v)
          | _ => throwOut "Unsupported array length"
        | .colord rgba =>
          let intAlpha : ℚ := match rgba.a with | some a => a * 255 | none => 255
          match info.type with
          | .INT_VEC3 =>
            callOut (.uniform3i (jsToInt32 rgba.r) (jsToInt32 rgba.g) (jsToInt32 rgba.b))
          | .INT_VEC4 =>
            callOut (.uniform4i (jsToInt32 rgba.r) (jsToInt32 rgba.g) (jsToInt32 rgba.b)
              (jsToInt32 intAlpha))
          | .FLOAT_VEC3 =>
            callOut (.uniform3f (some (rgba.r / 255)) (some (rgba.g / 255)) (some (rgba.b / 255)))
          | .FLOAT_VEC4 =>
            callOut (.uniform4f (some (rgba.r / 255)) (some (rgba.g / 255)) (some (rgba.b / 255))
              rgba.a)
          | _ => throwOut "Unsupported uniform type"
        | .rgbaObj rgba =>
          let intAlpha : Int := jsToInt32 (match rgba.a with | some a => a * 255 | none => 255)
          match info.type with
          | .INT_VEC3 =>
            callOut (.uniform3i (jsToInt32 rgba.r) (jsToInt32 rgba.g) (jsToInt32 rgba.b))
          | .INT_VEC4 =>
            callOut (.uniform4i (jsToInt32 rgba.r) (jsToInt32 rgba.g) (jsToInt32 rgba.b) intAlpha)
          | .FLOAT_VEC3 =>
            callOut (.uniform3f (some (rgba.r / 255)) (some (rgba.g / 255)) (some (rgba.b / 255)))
          | .FLOAT_VEC4 =>
            callOut (.uniform4f (some (rgba.r / 255)) (some (rgba.g / 255)) (some (rgba.b / 255))
              rgba.a)
          | _ => throwOut "Unsupported uniform type"
        | .otherObject => logOut "Unknown object type for uniform"
        | .otherValue => logOut "Failed to set uniform"

/-- `setUniform` of the unnamed companion file: same `try`/`catch`
wrapper as the named implementation. -/
def setUniformAlt (programBound hasLocation : Bool) (value : UniformValue)
    (uniformInfo : Option UniformInfo) : JsOut :=
  match setUniformBodyAlt programBound hasLocation value uniformInfo with
  | ⟨calls, logs, none⟩ => ⟨calls, logs, none⟩
  | ⟨calls, logs, some e⟩ =>
    ⟨calls, logs ++ ["Exception setting uniform parameter: " ++ e], none⟩

/-- One entry of the `uniforms` record as `UniformSetter.set` processes
it: whether its name resolved to a GPU location, the value, and the
cached introspection info. -/
structure Entry where
  hasLocation : Bool
  value : UniformValue
  uniformInfo : Option UniformInfo

/-- Sequencing of two JS outcomes: effects accumulate, and an uncaught
exception in the first aborts the second (as an exception thrown from a
`forEach` callback aborts the iteration). -/
def seqOut (a b : JsOut) : JsOut :=
  match a.exn with
  | some _ => a
  | none => ⟨a.calls ++ b.calls, a.logs ++ b.logs, b.exn⟩

/-- The `forEach` callback body of `UniformSetter.set`: entries whose
name has no location are skipped, the rest go through `setUniform`.
`ensureCorrectProgramBound()` has already bound the program. -/
def processEntry (e : Entry) : JsOut :=
  if e.hasLocation then setUniformMain true e.value e.uniformInfo else emptyOut

/-- `UniformSetter.set`: `Object.entries(uniforms).forEach(...)` over
the record's entries in order. -/
def set : List Entry → JsOut
  | [] => emptyOut
  | e :: rest => seqOut (processEntry e) (set rest)

theorem seqOut_assoc_of_first_ok (a b c : JsOut) (ha : a.exn = none) :
    seqOut (seqOut a b) c = seqOut a (seqOut b c) := by
  rcases a with ⟨ac, al, ae⟩
  simp only at ha
  subst ha
  rcases b with ⟨bc, bl, be⟩
  cases be <;> simp [seqOut, List.append_assoc]

end UniformSetterM

open UniformSetterM in
/-- C6 (counterexample): uploading the 3-length array `[1, 2, 3]` to a
uniform declared as a float 4-vector raises no error in either
implementation: `UniformSetter.ts` silently uploads a 3-component
float call, and the companion implementation uploads a 4-component
call padded with `undefined`. -/
theorem setUniform_vec4_three_array_no_error :
    setUniformBodyMain true (.arr [1, 2, 3]) (some ⟨.FLOAT_VEC4, "u_color"⟩) =
      ⟨[.uniform3f (some 1) (some 2) (some 3)], [], none⟩ ∧
    setUniformBodyAlt true true (.arr [1, 2, 3]) (some ⟨.FLOAT_VEC4, "u_color"⟩) =
      ⟨[.uniform4f (some 1) (some 2) (some 3) none], [], none⟩ :=
  ⟨rfl, rfl⟩

open UniformSetterM in
/-- C6 (amended): only `UniformSetter.ts` and only for an integer
4-vector (`INT_VEC4`) does a 3-length array raise an explicit error
(thrown, then caught and logged, with no upload); for `FLOAT_VEC4` it
uploads a 3-component float call without error, and the companion
implementation never errors — it zero-pads for `INT_VEC4` and pads
with `undefined` for `FLOAT_VEC4`. -/
theorem setUniform_int_vec4_three_array_errors (a b c : ℚ) (nm : String) :
    setUniformBodyMain true (.arr [a, b, c]) (some ⟨.INT_VEC4, nm⟩) =
      throwOut "Expected 4 values for INT_VEC4" ∧
    setUniformMain true (.arr [a, b, c]) (some ⟨.INT_VEC4, nm⟩) =
      ⟨[], ["Exception setting uniform parameter: Expected 4 values for INT_VEC4"], none⟩ ∧
    setUniformBodyMain true (.arr [a, b, c]) (some ⟨.FLOAT_VEC4, nm⟩) =
      ⟨[.uniform3f (some a) (some b) (some c)], [], none⟩ ∧
    setUniformBodyAlt true true (.arr [a, b, c]) (some ⟨.INT_VEC4, nm⟩) =
      ⟨[.uniform4i (jsToInt32 a) (jsToInt32 b) (jsToInt32 c) 0], [], none⟩ ∧
    setUniformBodyAlt true true (.arr [a, b, c]) (some ⟨.FLOAT_VEC4, nm⟩) =
      ⟨[.uniform4f (some a) (some b) (some c) none], [], none⟩ :=
  ⟨rfl, rfl, rfl, rfl, rfl⟩

open UniformSetterM in
/-- C7: the `setUniform` of `UniformSetter.ts` returns normally for
every value and uniform-info argument (its catch converts any
internally thrown error into a log), and consequently
`UniformSetter.set` processes every remaining entry of its uniforms
record even when an earlier entry's upload fails: processing a
concatenation of entry lists is processing the two lists in
sequence. -/
theorem setUniform_returns_normally_and_set_processes_all :
    (∀ (pb : Bool) (v : UniformValue) (info : Option UniformInfo),
      (setUniformMain pb v info).exn = none) ∧
    (∀ es1 es2 : List Entry,
      UniformSetterM.set (es1 ++ es2) =
        seqOut (UniformSetterM.set es1) (UniformSetterM.set es2)) := by
  have hc : ∀ (pb : Bool) (v : UniformValue) (info : Option UniformInfo),
      (setUniformMain pb v info).exn = none := by
    intro pb v info
    unfold setUniformMain
    rcases h : setUniformBodyMain pb v info with ⟨calls, logs, exn⟩
    cases exn <;> rfl
  refine ⟨hc, ?_⟩
  intro es1 es2
  induction es1 with
  | nil =>
    show UniformSetterM.set es2 = seqOut emptyOut (UniformSetterM.set es2)
    rcases UniformSetterM.set es2 with ⟨c, l, x⟩
    simp [seqOut, emptyOut]
  | cons e es ih =>
    have hpe : (processEntry e).exn = none := by
      unfold processEntry
      by_cases hL : e.hasLocation
      · simp [hL, hc]
      · simp [hL, emptyOut]
    show seqOut (processEntry e) (UniformSetterM.set (es ++ es2)) = _
    rw [ih, ← seqOut_assoc_of_first_ok (processEntry e) (UniformSetterM.set es)
      (UniformSetterM.set es2) hpe]
    rfl

open UniformSetterM in
/-- C9: the two `setUniform` implementations diverge when no
introspected uniform info is available: for a scalar number,
`UniformSetter.ts` falls back to a float upload (`uniform1f`), while
the companion implementation performs no GPU upload — it throws
"No uniform info available", which its catch logs. -/
theorem setUniform_no_info_divergence (x : ℚ) :
    setUniformMain true (.num x) none = ⟨[.uniform1f x], [], none⟩ ∧
    setUniformBodyAlt true true (.num x) none = throwOut "No uniform info available" ∧
    setUniformAlt true true (.num x) none =
      ⟨[], ["Exception setting uniform parameter: No uniform info available"], none⟩ :=
  ⟨rfl, rfl, rfl⟩
